/-
Verification of the Vexillographer option-code generator
(scripts/vexillographer.py) against its natural-language specification.

The embedding models `Vexillographer.write_file` (lines 130-159 of the
source) as a pure function from the result of XML parsing to the sequence
of Emitter method invocations together with an optional fatal error.
Python raises distinct exceptions (ParseError for ill-formed XML, KeyError
for a missing attribute, ValueError for a bad integer); the specification
groups them all under the single name `MalformedInput`, and we do the same.
-/

import Mathlib

/-- An XML element: tag name, attribute dictionary (modelled as an
association list with first-match lookup; XML well-formedness makes keys
unique), and the list of child elements in document order. -/
inductive Xml where
  | elem (tag : String) (attrib : List (String × String)) (children : List Xml)

/-- The attribute list of an element (Python `node.attrib`). -/
def Xml.attrib : Xml → List (String × String)
  | .elem _ a _ => a

/-- The child elements of an element, in document order
(Python iteration `for child in node`). -/
def Xml.children : Xml → List Xml
  | .elem _ _ c => c

/-- Dictionary lookup on an attribute list
(Python `attrib[key]` / `attrib.get(key)`). -/
def attribGet (attrib : List (String × String)) (key : String) : Option String :=
  match attrib with
  | [] => none
  | (k, v) :: rest => if k = key then some v else attribGet rest key

/-- One invocation of an Emitter method, with its arguments. -/
inductive EmitCall where
  | printHeaderWarning
  | writeScopeStart (name : String) (signed : Bool)
  | writeOption (name : String) (code : Int) (description : String)
      (scopeName : String) (deprecated : Bool)
  | writeScopeEnd
  | printFooter
deriving DecidableEq, Repr

/-- The single fatal error of the specification, covering ill-formed XML,
a missing required attribute, and a non-integer `code` attribute. -/
inductive VexError where
  | malformedInput
deriving DecidableEq, Repr

/- ### Model of CPython `int(str)` on ASCII strings -/

/-- Whitespace characters stripped by CPython `int()` around the digits. -/
def isPyWs (c : Char) : Bool :=
  c = ' ' || c = '\t' || c = '\n' || c = '\r' || c = '\x0b' || c = '\x0c'

/-- Strip leading and trailing whitespace. -/
def stripPyWs (cs : List Char) : List Char :=
  ((cs.dropWhile isPyWs).reverse.dropWhile isPyWs).reverse

/-- Numeric value of a decimal digit character. -/
def digitVal (c : Char) : Nat := c.toNat - 48

/-- Digits after the first one, where a single underscore may stand
between two digits (CPython underscore grouping: `1_0` is legal, `1__0`,
`1_`, `_1` are not). `acc` is the value of the digits already read. -/
def pyDigits : List Char → Nat → Option Nat
  | [], acc => some acc
  | c :: rest, acc =>
    if c.isDigit then pyDigits rest (acc * 10 + digitVal c)
    else if c = '_' then
      match rest with
      | [] => none
      | d :: rest2 =>
        if d.isDigit then pyDigits rest2 (acc * 10 + digitVal d) else none
    else none

/-- An unsigned digit run: at least one digit, underscores only between
digits. -/
def pyIntCore (cs : List Char) : Option Nat :=
  match cs with
  | [] => none
  | c :: rest => if c.isDigit then pyDigits rest (digitVal c) else none

/-- Model of CPython `int(s)` for an ASCII string: optional surrounding
whitespace, an optional `+` or `-` sign, then a decimal digit run with
optional underscore grouping. Returns `none` where CPython raises
`ValueError`. -/
def pyInt (s : String) : Option Int :=
  match stripPyWs s.data with
  | '+' :: rest => (pyIntCore rest).map (fun n => (n : Int))
  | '-' :: rest => (pyIntCore rest).map (fun n => -(n : Int))
  | rest => (pyIntCore rest).map (fun n => (n : Int))

/- ### The emission loop of `write_file` (source lines 138-159) -/

/-- Body of the inner option loop (source lines 146-155): read the
`description` attribute with default `""`, derive `deprecated`, then look
up `name` and `code` (in Python's argument-evaluation order) and parse
`code` as an integer; any missing attribute or unparseable code aborts
with `MalformedInput`. -/
def emitOption (scopeName : String) (optionNode : Xml) : Except VexError EmitCall :=
  let description := (attribGet optionNode.attrib "description").getD ""
  let deprecated : Bool := description == "Deprecated"
  match attribGet optionNode.attrib "name" with
  | none => .error .malformedInput
  | some name =>
    match attribGet optionNode.attrib "code" with
    | none => .error .malformedInput
    | some codeStr =>
      match pyInt codeStr with
      | none => .error .malformedInput
      | some code =>
        .ok (.writeOption name code description scopeName deprecated)

/-- The inner option loop: emits one `writeOption` per option node in
document order, stopping at the first failure. Returns the calls made and
the error, if any. -/
def emitOptions (scopeName : String) : List Xml → List EmitCall × Option VexError
  | [] => ([], none)
  | o :: rest =>
    match emitOption scopeName o with
    | .error e => ([], some e)
    | .ok call =>
      let (tr, err) := emitOptions scopeName rest
      (call :: tr, err)

/-- Body of the outer scope loop (source lines 138-157): look up the
scope's `name` (failure aborts before any call for this scope), derive
`signed`, call `writeScopeStart`, run the option loop, and call
`writeScopeEnd` only if no option failed. -/
def emitScope (scopeNode : Xml) : List EmitCall × Option VexError :=
  match attribGet scopeNode.attrib "name" with
  | none => ([], some .malformedInput)
  | some scopeName =>
    let signed : Bool := scopeName == "StreamingMode"
    let (tr, err) := emitOptions scopeName scopeNode.children
    (.writeScopeStart scopeName signed ::
      (tr ++ if err.isSome then [] else [.writeScopeEnd]), err)

/-- The outer scope loop over the root's children in document order,
stopping at the first failure. -/
def emitScopes : List Xml → List EmitCall × Option VexError
  | [] => ([], none)
  | s :: rest =>
    let (tr, err) := emitScope s
    match err with
    | some e => (tr, some e)
    | none =>
      let (tr2, err2) := emitScopes rest
      (tr ++ tr2, err2)

/-- `Vexillographer.write_file` (source lines 130-159). The argument is
the result of `ElementTree.parse`: `none` when the input is not
well-formed XML. `print_header_warning` is invoked on line 135, before
the parse on line 137; `print_footer` is invoked only after every scope
has been emitted without failure. -/
def write_file (parsed : Option Xml) : List EmitCall × Option VexError :=
  match parsed with
  | none => ([.printHeaderWarning], some .malformedInput)
  | some root =>
    let (tr, err) := emitScopes root.children
    (.printHeaderWarning :: (tr ++ if err.isSome then [] else [.printFooter]), err)

/- ### Spec-side two-phase model (spec sections 3, 4.1, 4.3)

The specification describes the run as parse-into-a-model followed by a
driver pass over the model. These definitions follow the spec's words;
the refinement theorems compare them with `write_file` above. -/

/-- Spec data model, section 3: an Option with its derived `deprecated`
flag computed at parse time. -/
structure OptionModel where
  name : String
  code : Int
  description : String
  deprecated : Bool
deriving DecidableEq, Repr

/-- Spec data model, section 3: a Scope with its derived `signed` flag
and its options in document order. -/
structure ScopeModel where
  name : String
  signed : Bool
  options : List OptionModel
deriving DecidableEq, Repr

/-- Spec parser, section 4.1: one option element. Requires `name` and an
integer-parseable `code`; `description` defaults to the empty string;
`deprecated` is derived by exact match against `"Deprecated"`. -/
def parseOptionModel (node : Xml) : Except VexError OptionModel :=
  match attribGet node.attrib "name" with
  | none => .error .malformedInput
  | some name =>
    match attribGet node.attrib "code" with
    | none => .error .malformedInput
    | some codeStr =>
      match pyInt codeStr with
      | none => .error .malformedInput
      | some code =>
        let description := (attribGet node.attrib "description").getD ""
        .ok ⟨name, code, description, description == "Deprecated"⟩

/-- Spec parser: a list of option elements in document order. -/
def parseOptionModels : List Xml → Except VexError (List OptionModel)
  | [] => .ok []
  | o :: rest =>
    match parseOptionModel o with
    | .error e => .error e
    | .ok m =>
      match parseOptionModels rest with
      | .error e => .error e
      | .ok ms => .ok (m :: ms)

/-- Spec parser, section 4.1: one scope element. Requires `name`;
`signed` is derived by exact match against `"StreamingMode"`. -/
def parseScopeModel (node : Xml) : Except VexError ScopeModel :=
  match attribGet node.attrib "name" with
  | none => .error .malformedInput
  | some name =>
    match parseOptionModels node.children with
    | .error e => .error e
    | .ok opts => .ok ⟨name, name == "StreamingMode", opts⟩

/-- Spec parser: a list of scope elements in document order. -/
def parseScopeModels : List Xml → Except VexError (List ScopeModel)
  | [] => .ok []
  | s :: rest =>
    match parseScopeModel s with
    | .error e => .error e
    | .ok sc =>
      match parseScopeModels rest with
      | .error e => .error e
      | .ok scs => .ok (sc :: scs)

/-- Spec parser, section 4.1: the whole document, an ordered sequence of
scopes read from the root's children. -/
def parseModel (root : Xml) : Except VexError (List ScopeModel) :=
  parseScopeModels root.children

/-- The `writeOption` call the spec driver issues for one option
(spec section 4.3). -/
def optionCall (scopeName : String) (o : OptionModel) : EmitCall :=
  .writeOption o.name o.code o.description scopeName o.deprecated

/-- The calls the spec driver issues for one scope (spec section 4.3):
`writeScopeStart`, one `writeOption` per option in order, `writeScopeEnd`. -/
def scopeCalls (sc : ScopeModel) : List EmitCall :=
  .writeScopeStart sc.name sc.signed ::
    (sc.options.map (optionCall sc.name) ++ [.writeScopeEnd])

/-- The spec driver, section 4.3: header, every scope in document order,
footer. -/
def specDriver (scopes : List ScopeModel) : List EmitCall :=
  .printHeaderWarning :: (scopes.flatMap scopeCalls ++ [.printFooter])

/- ### Attribute views (for the claim that only `name`, `code`,
`description` at the first two levels influence the output) -/

/-- Everything `write_file` can observe of an option element. -/
structure OptionView where
  name : Option String
  code : Option String
  description : Option String
deriving DecidableEq, Repr

/-- Everything `write_file` can observe of a scope element. -/
structure ScopeView where
  name : Option String
  options : List OptionView
deriving DecidableEq, Repr

/-- The observable projection of an option element: its three relevant
attributes. Its tag, other attributes, and nested children are dropped. -/
def optView (o : Xml) : OptionView :=
  ⟨attribGet o.attrib "name", attribGet o.attrib "code",
    attribGet o.attrib "description"⟩

/-- The observable projection of a scope element. -/
def scopeView (s : Xml) : ScopeView :=
  ⟨attribGet s.attrib "name", s.children.map optView⟩

/-- The observable projection of a document: its scopes' views in order. -/
def docView (root : Xml) : List ScopeView :=
  root.children.map scopeView

/- ### Concrete fixtures -/

/-- The end-to-end example input of spec section 8. -/
def exampleDoc : Xml :=
  .elem "Options" []
    [ .elem "Scope" [("name", "NetworkOption")]
        [ .elem "Option"
            [("name", "trace_enable"), ("code", "30"),
              ("description", "Enable trace")] [],
          .elem "Option"
            [("name", "old_flag"), ("code", "5"),
              ("description", "Deprecated")] [] ],
      .elem "Scope" [("name", "StreamingMode")]
        [ .elem "Option" [("name", "iterator"), ("code", "1")] [] ] ]

/-- A document with one non-signed scope holding one option named `opt`
whose `code` attribute is the given string. -/
def singleOptionDoc (code : String) : Xml :=
  .elem "Options" []
    [ .elem "Scope" [("name", "NetworkOption")]
        [ .elem "Option" [("name", "opt"), ("code", code)] [] ] ]

/-- A scope element carrying only a `name` attribute and no options. -/
def namedScope (nm : String) : Xml :=
  .elem "Scope" [("name", nm)] []

/-- An option element with a `name`, a `code`, and a `description`. -/
def describedOption (d : String) : Xml :=
  .elem "Option" [("name", "o"), ("code", "7"), ("description", d)] []

/-- An option element with a `name` and `code` but no `description`. -/
def bareOption : Xml :=
  .elem "Option" [("name", "o"), ("code", "7")] []

/-- A well-formed option element used as a prefix in failure fixtures. -/
def goodOption : Xml := .elem "Option" [("name", "a"), ("code", "1")] []

/-- The spec model of `exampleDoc`. -/
def exampleScopes : List ScopeModel :=
  [ ⟨"NetworkOption", false,
      [⟨"trace_enable", 30, "Enable trace", false⟩,
        ⟨"old_flag", 5, "Deprecated", true⟩]⟩,
    ⟨"StreamingMode", true, [⟨"iterator", 1, "", false⟩]⟩ ]

/-- A document whose second scope element has no `name` attribute. -/
def missingScopeNameDoc : Xml :=
  .elem "Options" [] [namedScope "Good", .elem "Scope" [] []]

/-- A document whose scope holds a good option and then an option with no
`code` attribute. -/
def missingOptionCodeDoc : Xml :=
  .elem "Options" []
    [ .elem "Scope" [("name", "S")]
        [goodOption, .elem "Option" [("name", "x")] []] ]

/-- A document with a good first scope, then a scope whose second option
carries the non-numeric code `"abc"`. -/
def badCodeDoc : Xml :=
  .elem "Options" []
    [ namedScope "First",
      .elem "Scope" [("name", "S")]
        [ goodOption,
          .elem "Option" [("name", "bad"), ("code", "abc")] [],
          .elem "Option" [("name", "after"), ("code", "9")] [] ] ]

/-- A document dressed up with irrelevant tags, extra attributes, and an
element nested inside an option. -/
def nestedNoiseDoc : Xml :=
  .elem "RootTag" [("extra", "1")]
    [ .elem "Group" [("name", "S"), ("junk", "x")]
        [ .elem "Opt" [("name", "a"), ("code", "2"), ("other", "y")]
            [ .elem "Nested" [("name", "ignored"), ("code", "zzz")] [] ] ] ]

/-- The plain document observationally equal to `nestedNoiseDoc`. -/
def plainDoc : Xml :=
  .elem "Options" []
    [ .elem "Scope" [("name", "S")]
        [ .elem "Option" [("name", "a"), ("code", "2")] [] ] ]

/- ### Refinement lemmas: the interleaved loop of `write_file` agrees
with the spec's parse-then-drive description on parseable input. -/

theorem emitOption_of_parse (sn : String) (node : Xml) (m : OptionModel)
    (h : parseOptionModel node = .ok m) :
    emitOption sn node = .ok (optionCall sn m) := by
  cases h1 : attribGet node.attrib "name" with
  | none => simp [parseOptionModel, h1] at h
  | some nm =>
    cases h2 : attribGet node.attrib "code" with
    | none => simp [parseOptionModel, h1, h2] at h
    | some cs =>
      cases h3 : pyInt cs with
      | none => simp [parseOptionModel, h1, h2, h3] at h
      | some k =>
        simp only [parseOptionModel, h1, h2, h3] at h
        simp only [Except.ok.injEq] at h
        subst h
        simp [emitOption, h1, h2, h3, optionCall]

theorem emitOptions_of_parse (sn : String) :
    ∀ (nodes : List Xml) (ms : List OptionModel),
    parseOptionModels nodes = .ok ms →
    emitOptions sn nodes = (ms.map (optionCall sn), none) := by
  intro nodes
  induction nodes with
  | nil =>
    intro ms h
    simp only [parseOptionModels, Except.ok.injEq] at h
    subst h
    rfl
  | cons o rest ih =>
    intro ms h
    cases h1 : parseOptionModel o with
    | error e => simp [parseOptionModels, h1] at h
    | ok m =>
      cases h2 : parseOptionModels rest with
      | error e => simp [parseOptionModels, h1, h2] at h
      | ok ms2 =>
        simp only [parseOptionModels, h1, h2, Except.ok.injEq] at h
        subst h
        simp [emitOptions, emitOption_of_parse sn o m h1, ih ms2 h2]

theorem emitScope_of_parse (node : Xml) (sc : ScopeModel)
    (h : parseScopeModel node = .ok sc) :
    emitScope node = (scopeCalls sc, none) := by
  cases h1 : attribGet node.attrib "name" with
  | none => simp [parseScopeModel, h1] at h
  | some nm =>
    cases h2 : parseOptionModels node.children with
    | error e => simp [parseScopeModel, h1, h2] at h
    | ok opts =>
      simp only [parseScopeModel, h1, h2, Except.ok.injEq] at h
      subst h
      simp [emitScope, h1, emitOptions_of_parse nm node.children opts h2,
        scopeCalls]

theorem emitScopes_of_parse :
    ∀ (nodes : List Xml) (scs : List ScopeModel),
    parseScopeModels nodes = .ok scs →
    emitScopes nodes = (scs.flatMap scopeCalls, none) := by
  intro nodes
  induction nodes with
  | nil =>
    intro scs h
    simp only [parseScopeModels, Except.ok.injEq] at h
    subst h
    rfl
  | cons s rest ih =>
    intro scs h
    cases h1 : parseScopeModel s with
    | error e => simp [parseScopeModels, h1] at h
    | ok sc =>
      cases h2 : parseScopeModels rest with
      | error e => simp [parseScopeModels, h1, h2] at h
      | ok scs2 =>
        simp only [parseScopeModels, h1, h2, Except.ok.injEq] at h
        subst h
        simp [emitScopes, emitScope_of_parse s sc h1, ih scs2 h2]

/- ### Failure-path lemmas: the loop stops at the first error, keeping
every call already made. -/

theorem emitOption_badInt (sn : String) (bad : Xml) (bn c : String)
    (hbn : attribGet bad.attrib "name" = some bn)
    (hbc : attribGet bad.attrib "code" = some c)
    (hpy : pyInt c = none) :
    emitOption sn bad = .error .malformedInput := by
  simp [emitOption, hbn, hbc, hpy]

theorem emitOption_missing_attr (sn : String) (bad : Xml)
    (h : attribGet bad.attrib "name" = none ∨
      attribGet bad.attrib "code" = none) :
    emitOption sn bad = .error .malformedInput := by
  rcases h with h | h
  · simp [emitOption, h]
  · cases h1 : attribGet bad.attrib "name" with
    | none => simp [emitOption, h1]
    | some nm => simp [emitOption, h1, h]

theorem emitOptions_fail (sn : String) (bad : Xml) (e : VexError)
    (hbad : emitOption sn bad = .error e) :
    ∀ (pre post : List Xml) (ms : List OptionModel),
    parseOptionModels pre = .ok ms →
    emitOptions sn (pre ++ bad :: post) = (ms.map (optionCall sn), some e) := by
  intro pre
  induction pre with
  | nil =>
    intro post ms h
    simp only [parseOptionModels, Except.ok.injEq] at h
    subst h
    simp [emitOptions, hbad]
  | cons o rest ih =>
    intro post ms h
    cases h1 : parseOptionModel o with
    | error e2 => simp [parseOptionModels, h1] at h
    | ok m =>
      cases h2 : parseOptionModels rest with
      | error e2 => simp [parseOptionModels, h1, h2] at h
      | ok ms2 =>
        simp only [parseOptionModels, h1, h2, Except.ok.injEq] at h
        subst h
        rw [List.cons_append]
        simp [emitOptions, emitOption_of_parse sn o m h1, ih post ms2 h2]

theorem emitScope_fail (s bad : Xml) (preO postO : List Xml)
    (opts : List OptionModel) (sn : String) (e : VexError)
    (hsn : attribGet s.attrib "name" = some sn)
    (hsc : s.children = preO ++ bad :: postO)
    (hpreO : parseOptionModels preO = .ok opts)
    (hbad : emitOption sn bad = .error e) :
    emitScope s =
      (.writeScopeStart sn (sn == "StreamingMode") ::
        opts.map (optionCall sn), some e) := by
  simp [emitScope, hsn, hsc, emitOptions_fail sn bad e hbad preO postO opts hpreO]

theorem emitScopes_fail (s : Xml) (tr : List EmitCall) (e : VexError)
    (hs : emitScope s = (tr, some e)) :
    ∀ (preS postS : List Xml) (scs : List ScopeModel),
    parseScopeModels preS = .ok scs →
    emitScopes (preS ++ s :: postS) =
      (scs.flatMap scopeCalls ++ tr, some e) := by
  intro preS
  induction preS with
  | nil =>
    intro postS scs h
    simp only [parseScopeModels, Except.ok.injEq] at h
    subst h
    simp [emitScopes, hs]
  | cons s0 rest ih =>
    intro postS scs h
    cases h1 : parseScopeModel s0 with
    | error e2 => simp [parseScopeModels, h1] at h
    | ok sc =>
      cases h2 : parseScopeModels rest with
      | error e2 => simp [parseScopeModels, h1, h2] at h
      | ok scs2 =>
        simp only [parseScopeModels, h1, h2, Except.ok.injEq] at h
        subst h
        rw [List.cons_append]
        simp [emitScopes, emitScope_of_parse s0 sc h1, ih postS scs2 h2]

theorem write_file_fail (root : Xml) (tr : List EmitCall) (e : VexError)
    (h : emitScopes root.children = (tr, some e)) :
    write_file (some root) = (.printHeaderWarning :: tr, some e) := by
  simp [write_file, h]

/- ### Congruence lemmas: the run observes only the attribute views. -/

theorem emitOption_congr (sn : String) (o1 o2 : Xml)
    (h : optView o1 = optView o2) :
    emitOption sn o1 = emitOption sn o2 := by
  have h1 : attribGet o1.attrib "name" = attribGet o2.attrib "name" :=
    congrArg OptionView.name h
  have h2 : attribGet o1.attrib "code" = attribGet o2.attrib "code" :=
    congrArg OptionView.code h
  have h3 : attribGet o1.attrib "description" =
      attribGet o2.attrib "description" :=
    congrArg OptionView.description h
  unfold emitOption
  simp only [h1, h2, h3]

theorem emitOptions_congr (sn : String) :
    ∀ (os1 os2 : List Xml), os1.map optView = os2.map optView →
    emitOptions sn os1 = emitOptions sn os2 := by
  intro os1
  induction os1 with
  | nil =>
    intro os2 h
    cases os2 with
    | nil => rfl
    | cons o2 rest2 => simp at h
  | cons o rest ih =>
    intro os2 h
    cases os2 with
    | nil => simp at h
    | cons o2 rest2 =>
      simp only [List.map_cons, List.cons.injEq] at h
      obtain ⟨hov, hrest⟩ := h
      unfold emitOptions
      rw [emitOption_congr sn o o2 hov, ih rest2 hrest]

theorem emitScope_congr (s1 s2 : Xml) (h : scopeView s1 = scopeView s2) :
    emitScope s1 = emitScope s2 := by
  have h1 : attribGet s1.attrib "name" = attribGet s2.attrib "name" :=
    congrArg ScopeView.name h
  have h2 : s1.children.map optView = s2.children.map optView :=
    congrArg ScopeView.options h
  unfold emitScope
  simp only [h1, emitOptions_congr _ s1.children s2.children h2]

theorem emitScopes_congr :
    ∀ (ss1 ss2 : List Xml), ss1.map scopeView = ss2.map scopeView →
    emitScopes ss1 = emitScopes ss2 := by
  intro ss1
  induction ss1 with
  | nil =>
    intro ss2 h
    cases ss2 with
    | nil => rfl
    | cons s2 rest2 => simp at h
  | cons s rest ih =>
    intro ss2 h
    cases ss2 with
    | nil => simp at h
    | cons s2 rest2 =>
      simp only [List.map_cons, List.cons.injEq] at h
      obtain ⟨hsv, hrest⟩ := h
      unfold emitScopes
      rw [emitScope_congr s s2 hsv, ih rest2 hrest]

/- ### Claim theorems -/

/-- C1: for every well-formed input whose scope and option elements all
carry the required attributes and integer-parseable codes (that is, every
input the spec parser accepts), `write_file` issues exactly the call
sequence `printHeaderWarning`, then for each scope in document order
`writeScopeStart`, one `writeOption` per option in document order,
`writeScopeEnd`, then `printFooter` — never reordered, duplicated,
dropped, or batched. -/
theorem write_file_order_preservation (root : Xml) (scopes : List ScopeModel)
    (h : parseModel root = .ok scopes) :
    write_file (some root) = (specDriver scopes, none) := by
  unfold parseModel at h
  simp [write_file, emitScopes_of_parse root.children scopes h, specDriver]

/-- Witness for C1 at the spec's end-to-end example document. -/
theorem write_file_order_preservation_witness :
    parseModel exampleDoc = .ok exampleScopes ∧
    write_file (some exampleDoc) = (specDriver exampleScopes, none) :=
  ⟨rfl, write_file_order_preservation exampleDoc exampleScopes rfl⟩

/-- C2 counterexample: on input that is not well-formed XML the run does
fail with `MalformedInput`, but the Emitter call list is not empty —
`print_header_warning` (source line 135) runs before the parse (line
137), so one Emitter call is made even for malformed input. -/
theorem write_file_malformed_emits_header :
    (write_file none).2 = some VexError.malformedInput ∧
    (write_file none).1 ≠ ([] : List EmitCall) :=
  ⟨rfl, by decide⟩

/-- C2 amended: `printHeaderWarning` is always the first Emitter call and
precedes parsing; for input that is not well-formed XML the run fails
with `MalformedInput` after exactly that one call, and no other Emitter
call is made. -/
theorem write_file_header_always_first :
    (∀ parsed : Option Xml,
      (write_file parsed).1.head? = some EmitCall.printHeaderWarning) ∧
    write_file none = ([EmitCall.printHeaderWarning], some VexError.malformedInput) := by
  constructor
  · intro parsed
    cases parsed with
    | none => rfl
    | some root =>
      cases hE : emitScopes root.children with
      | mk tr err => simp [write_file, hE]
  · rfl

/-- C8: on the spec's end-to-end example input, `write_file` produces
exactly the nine-call sequence of spec section 8. -/
theorem write_file_example :
    write_file (some exampleDoc) =
      ([.printHeaderWarning,
        .writeScopeStart "NetworkOption" false,
        .writeOption "trace_enable" 30 "Enable trace" "NetworkOption" false,
        .writeOption "old_flag" 5 "Deprecated" "NetworkOption" true,
        .writeScopeEnd,
        .writeScopeStart "StreamingMode" true,
        .writeOption "iterator" 1 "" "StreamingMode" false,
        .writeScopeEnd,
        .printFooter], none) := by
  rfl

/-- C3: an option whose `code` attribute is present but not an integer
aborts the run with `MalformedInput`; the trace is exactly the header,
the calls for the prior fully-processed scopes, and the current scope's
`writeScopeStart` plus the `writeOption`s of the options preceding the
bad one — so no `writeOption` is made for the bad option and no Emitter
call of any kind follows the failure. -/
theorem write_file_bad_code_aborts
    (root s bad : Xml) (preS postS preO postO : List Xml)
    (scopes : List ScopeModel) (opts : List OptionModel)
    (sn bn c : String)
    (hroot : root.children = preS ++ s :: postS)
    (hpreS : parseScopeModels preS = .ok scopes)
    (hsn : attribGet s.attrib "name" = some sn)
    (hsc : s.children = preO ++ bad :: postO)
    (hpreO : parseOptionModels preO = .ok opts)
    (hbn : attribGet bad.attrib "name" = some bn)
    (hbc : attribGet bad.attrib "code" = some c)
    (hpy : pyInt c = none) :
    write_file (some root) =
      (.printHeaderWarning ::
        (scopes.flatMap scopeCalls ++
          (.writeScopeStart sn (sn == "StreamingMode") ::
            opts.map (optionCall sn))),
        some .malformedInput) := by
  apply write_file_fail
  rw [hroot]
  exact emitScopes_fail s _ .malformedInput
    (emitScope_fail s bad preO postO opts sn .malformedInput hsn hsc hpreO
      (emitOption_badInt sn bad bn c hbn hbc hpy))
    preS postS scopes hpreS

/-- Witness for C3: in `badCodeDoc` the first scope is fully emitted, the
second scope's `writeScopeStart` and first `writeOption` are emitted, and
the run stops at the option with `code="abc"` — no call for it, none for
the option after it, no `writeScopeEnd`, no `printFooter`. -/
theorem write_file_bad_code_aborts_witness :
    write_file (some badCodeDoc) =
      ([.printHeaderWarning,
        .writeScopeStart "First" false,
        .writeScopeEnd,
        .writeScopeStart "S" false,
        .writeOption "a" 1 "" "S" false],
        some .malformedInput) := by
  simpa using write_file_bad_code_aborts badCodeDoc
    (.elem "Scope" [("name", "S")]
      [goodOption,
        .elem "Option" [("name", "bad"), ("code", "abc")] [],
        .elem "Option" [("name", "after"), ("code", "9")] []])
    (.elem "Option" [("name", "bad"), ("code", "abc")] [])
    [namedScope "First"] []
    [goodOption] [.elem "Option" [("name", "after"), ("code", "9")] []]
    [⟨"First", false, []⟩] [⟨"a", 1, "", false⟩]
    "S" "bad" "abc" rfl rfl rfl rfl rfl rfl rfl rfl

/-- C4: whenever a scope element carries a `name` attribute, the first
call its processing emits is `writeScopeStart` with a `signed` flag equal
to the Boolean test `name == "StreamingMode"` — true exactly when the
name is the literal string `"StreamingMode"`. -/
theorem emitScope_signed_flag (node : Xml) (nm : String)
    (h : attribGet node.attrib "name" = some nm) :
    (emitScope node).1.head? =
      some (.writeScopeStart nm (nm == "StreamingMode")) ∧
    ((nm == "StreamingMode") = true ↔ nm = "StreamingMode") := by
  constructor
  · cases hE : emitOptions nm node.children with
    | mk tr err => simp [emitScope, h, hE]
  · simp

/-- Witness for C4: the flag is true for `"StreamingMode"` and false for
the case variant `"streamingmode"` and the near-match `"StreamingModeX"`. -/
theorem emitScope_signed_flag_witness :
    (emitScope (namedScope "StreamingMode")).1.head? =
      some (.writeScopeStart "StreamingMode" true) ∧
    (emitScope (namedScope "streamingmode")).1.head? =
      some (.writeScopeStart "streamingmode" false) ∧
    (emitScope (namedScope "StreamingModeX")).1.head? =
      some (.writeScopeStart "StreamingModeX" false) := by
  refine ⟨?_, ?_, ?_⟩
  · simpa using (emitScope_signed_flag (namedScope "StreamingMode")
      "StreamingMode" rfl).1
  · simpa using (emitScope_signed_flag (namedScope "streamingmode")
      "streamingmode" rfl).1
  · simpa using (emitScope_signed_flag (namedScope "StreamingModeX")
      "StreamingModeX" rfl).1

/-- C5: for every option element with a `name` and an integer-parseable
`code`, the `deprecated` flag passed to `writeOption` is the Boolean test
`description == "Deprecated"` on the (defaulted) description — true
exactly when the description is the literal string `"Deprecated"`. -/
theorem emitOption_deprecated_flag (sn : String) (node : Xml)
    (nm c : String) (k : Int)
    (h1 : attribGet node.attrib "name" = some nm)
    (h2 : attribGet node.attrib "code" = some c)
    (h3 : pyInt c = some k) :
    emitOption sn node =
      .ok (.writeOption nm k ((attribGet node.attrib "description").getD "")
        sn (((attribGet node.attrib "description").getD "") == "Deprecated")) ∧
    ((((attribGet node.attrib "description").getD "") == "Deprecated") = true ↔
      ((attribGet node.attrib "description").getD "") = "Deprecated") := by
  constructor
  · simp [emitOption, h1, h2, h3]
  · simp

/-- Witness for C5: `deprecated` is true for description `"Deprecated"`,
false for `"deprecated"`, for the substring case
`"This option is Deprecated"`, and for the empty description. -/
theorem emitOption_deprecated_flag_witness :
    emitOption "S" (describedOption "Deprecated") =
      .ok (.writeOption "o" 7 "Deprecated" "S" true) ∧
    emitOption "S" (describedOption "deprecated") =
      .ok (.writeOption "o" 7 "deprecated" "S" false) ∧
    emitOption "S" (describedOption "This option is Deprecated") =
      .ok (.writeOption "o" 7 "This option is Deprecated" "S" false) ∧
    emitOption "S" (describedOption "") =
      .ok (.writeOption "o" 7 "" "S" false) := by
  refine ⟨?_, ?_, ?_, ?_⟩
  · simpa using (emitOption_deprecated_flag "S" (describedOption "Deprecated")
      "o" "7" 7 rfl rfl rfl).1
  · simpa using (emitOption_deprecated_flag "S" (describedOption "deprecated")
      "o" "7" 7 rfl rfl rfl).1
  · simpa using (emitOption_deprecated_flag "S"
      (describedOption "This option is Deprecated") "o" "7" 7 rfl rfl rfl).1
  · simpa using (emitOption_deprecated_flag "S" (describedOption "")
      "o" "7" 7 rfl rfl rfl).1

/-- C6: an option element with no `description` attribute is emitted with
description `""` and `deprecated = false`; the run does not fail on a
missing description. -/
theorem emitOption_missing_description (sn : String) (node : Xml)
    (nm c : String) (k : Int)
    (hd : attribGet node.attrib "description" = none)
    (h1 : attribGet node.attrib "name" = some nm)
    (h2 : attribGet node.attrib "code" = some c)
    (h3 : pyInt c = some k) :
    emitOption sn node = .ok (.writeOption nm k "" sn false) := by
  simp [emitOption, h1, h2, h3, hd]

/-- Witness for C6 at a concrete description-less option element. -/
theorem emitOption_missing_description_witness :
    emitOption "S" bareOption = .ok (.writeOption "o" 7 "" "S" false) :=
  emitOption_missing_description "S" bareOption "o" "7" 7 rfl rfl rfl rfl

/-- C7: a scope element lacking `name`, or an option element lacking
`name` or `code`, aborts the run with `MalformedInput`; the trace keeps
every call already made for prior fully-processed scopes (and, when the
failure is in an option, the current scope's `writeScopeStart` and the
preceding options' `writeOption`s), and no call beyond those is issued. -/
theorem write_file_missing_attribute_aborts :
    (∀ (root s : Xml) (preS postS : List Xml) (scopes : List ScopeModel),
      root.children = preS ++ s :: postS →
      parseScopeModels preS = .ok scopes →
      attribGet s.attrib "name" = none →
      write_file (some root) =
        (.printHeaderWarning :: scopes.flatMap scopeCalls,
          some .malformedInput)) ∧
    (∀ (root s bad : Xml) (preS postS preO postO : List Xml)
        (scopes : List ScopeModel) (opts : List OptionModel) (sn : String),
      root.children = preS ++ s :: postS →
      parseScopeModels preS = .ok scopes →
      attribGet s.attrib "name" = some sn →
      s.children = preO ++ bad :: postO →
      parseOptionModels preO = .ok opts →
      (attribGet bad.attrib "name" = none ∨
        attribGet bad.attrib "code" = none) →
      write_file (some root) =
        (.printHeaderWarning ::
          (scopes.flatMap scopeCalls ++
            (.writeScopeStart sn (sn == "StreamingMode") ::
              opts.map (optionCall sn))),
          some .malformedInput)) := by
  constructor
  · intro root s preS postS scopes hroot hpreS hname
    have hscope : emitScope s = ([], some .malformedInput) := by
      simp [emitScope, hname]
    have h := emitScopes_fail s [] .malformedInput hscope preS postS scopes hpreS
    have h2 := write_file_fail root (scopes.flatMap scopeCalls ++ [])
      .malformedInput (by rw [hroot]; exact h)
    simpa using h2
  · intro root s bad preS postS preO postO scopes opts sn hroot hpreS hsn hsc
      hpreO hbad
    apply write_file_fail
    rw [hroot]
    exact emitScopes_fail s _ .malformedInput
      (emitScope_fail s bad preO postO opts sn .malformedInput hsn hsc hpreO
        (emitOption_missing_attr sn bad hbad))
      preS postS scopes hpreS

/-- Witness for C7: a nameless second scope keeps the first scope's three
calls; an option with no `code` keeps the header, the scope's
`writeScopeStart`, and the preceding good option's `writeOption`. -/
theorem write_file_missing_attribute_aborts_witness :
    write_file (some missingScopeNameDoc) =
      ([.printHeaderWarning,
        .writeScopeStart "Good" false,
        .writeScopeEnd], some .malformedInput) ∧
    write_file (some missingOptionCodeDoc) =
      ([.printHeaderWarning,
        .writeScopeStart "S" false,
        .writeOption "a" 1 "" "S" false], some .malformedInput) := by
  constructor
  · simpa using write_file_missing_attribute_aborts.1 missingScopeNameDoc
      (.elem "Scope" [] []) [namedScope "Good"] [] [⟨"Good", false, []⟩]
      rfl rfl rfl
  · simpa using write_file_missing_attribute_aborts.2 missingOptionCodeDoc
      (.elem "Scope" [("name", "S")]
        [goodOption, .elem "Option" [("name", "x")] []])
      (.elem "Option" [("name", "x")] [])
      [] [] [goodOption] [] [] [⟨"a", 1, "", false⟩] "S"
      rfl rfl rfl rfl rfl (Or.inr rfl)

/-- Helper: evaluation of the option-loop body when `name` is present and
`code` parses. -/
theorem emitOption_eval (sn : String) (node : Xml) (nm c : String) (k : Int)
    (h1 : attribGet node.attrib "name" = some nm)
    (h2 : attribGet node.attrib "code" = some c)
    (h3 : pyInt c = some k) :
    emitOption sn node =
      .ok (.writeOption nm k ((attribGet node.attrib "description").getD "")
        sn (((attribGet node.attrib "description").getD "") == "Deprecated")) := by
  simp [emitOption, h1, h2, h3]

/-- C9: the `code` attribute is accepted exactly when CPython `int()`
accepts it; any string `c` with `pyInt c = some n` — including signed,
whitespace-padded, and underscore-grouped decimals — yields a successful
run whose `writeOption` carries `n`, even a negative `n` in a scope whose
`signed` flag is false. -/
theorem write_file_pyInt_codes (c : String) (n : Int)
    (h : pyInt c = some n) :
    write_file (some (singleOptionDoc c)) =
      ([.printHeaderWarning,
        .writeScopeStart "NetworkOption" false,
        .writeOption "opt" n "" "NetworkOption" false,
        .writeScopeEnd,
        .printFooter], none) := by
  have hopt : emitOption "NetworkOption"
      (.elem "Option" [("name", "opt"), ("code", c)] []) =
      .ok (.writeOption "opt" n "" "NetworkOption" false) := by
    simpa using emitOption_eval "NetworkOption"
      (.elem "Option" [("name", "opt"), ("code", c)] []) "opt" c n rfl rfl h
  simp [write_file, singleOptionDoc, emitScopes, emitScope, emitOptions,
    Xml.children, Xml.attrib, attribGet, hopt]

/-- Witness for C9: the signed string `"-5"` (negative, in a non-signed
scope), the whitespace-padded `" 42 "`, and the underscore-grouped
`"1_0"` are all accepted with the corresponding integer value. -/
theorem write_file_pyInt_codes_witness :
    write_file (some (singleOptionDoc "-5")) =
      ([.printHeaderWarning,
        .writeScopeStart "NetworkOption" false,
        .writeOption "opt" (-5) "" "NetworkOption" false,
        .writeScopeEnd,
        .printFooter], none) ∧
    write_file (some (singleOptionDoc " 42 ")) =
      ([.printHeaderWarning,
        .writeScopeStart "NetworkOption" false,
        .writeOption "opt" 42 "" "NetworkOption" false,
        .writeScopeEnd,
        .printFooter], none) ∧
    write_file (some (singleOptionDoc "1_0")) =
      ([.printHeaderWarning,
        .writeScopeStart "NetworkOption" false,
        .writeOption "opt" 10 "" "NetworkOption" false,
        .writeScopeEnd,
        .printFooter], none) :=
  ⟨write_file_pyInt_codes "-5" (-5) rfl,
    write_file_pyInt_codes " 42 " 42 rfl,
    write_file_pyInt_codes "1_0" 10 rfl⟩

/-- C10: the run observes only the first two element levels below the
root and, there, only the attributes `name`, `code`, and `description`:
any two documents with the same observable projection — regardless of tag
names, other attributes, and elements nested inside options — produce the
same calls and the same error. -/
theorem write_file_observes_only_views (d1 d2 : Xml)
    (h : docView d1 = docView d2) :
    write_file (some d1) = write_file (some d2) := by
  unfold docView at h
  have hE := emitScopes_congr d1.children d2.children h
  simp only [write_file, hE]

/-- Witness for C10: a document dressed with irrelevant tags, extra
attributes, and an element nested inside its option behaves exactly like
its plain counterpart. -/
theorem write_file_observes_only_views_witness :
    write_file (some nestedNoiseDoc) = write_file (some plainDoc) :=
  write_file_observes_only_views nestedNoiseDoc plainDoc rfl
